import Mathlib

/-!
# NeverDown — verification of the incident-remediation pipeline

A shallow embedding, in Lean 4, of the parts of the NeverDown source that the
specification's claims are about, together with theorems settling each claim.

Conventions used throughout:

* Python enums become Lean inductive types; attribute access on an enum class
  (`IncidentStatus.FOO`) is modelled by a member-lookup function returning
  `Option`, since access to a missing member raises `AttributeError`.
* Python floats for confidences are modelled as `ℚ`; the Shannon-entropy value
  (computed with `math.log2`) is modelled over `ℝ`.
* Python strings / lists become `String` / `List`; the handful of regexes that
  matter are embedded as explicit line parsers whose behaviour on the inputs in
  question coincides with the Python regex semantics (greedy character-class
  quantifiers over a line).
* I/O results (subprocess exit codes, the sandbox, the LLM) are abstracted as
  explicit inputs to the embedded functions.
-/

namespace NeverDown

/-! ## Incident status (src/models/incident.py, lines 28-40)

The `IncidentStatus(str, Enum)` class has exactly these eleven members. -/

/-- The status enum from `src/models/incident.py`.  `creatingPr` and `prCreated`
render the Python members `CREATING_PR` and `PR_CREATED`. -/
inductive IncidentStatus
  | pending
  | processing
  | sanitizing
  | analyzing
  | reasoning
  | verifying
  | creatingPr
  | prCreated
  | completed
  | failed
  | retrying
  deriving DecidableEq, Repr, Fintype

/-- The `str` value of each enum member, exactly as written in the source. -/
def IncidentStatus.value : IncidentStatus → String
  | .pending => "pending"
  | .processing => "processing"
  | .sanitizing => "sanitizing"
  | .analyzing => "analyzing"
  | .reasoning => "reasoning"
  | .verifying => "verifying"
  | .creatingPr => "creating_pr"
  | .prCreated => "pr_created"
  | .completed => "completed"
  | .failed => "failed"
  | .retrying => "retrying"

/-- Python attribute access `IncidentStatus.<NAME>`: `some` for the eleven
members that exist, `none` (an `AttributeError` at runtime) otherwise.  The
orchestrator and the ingress routes access `MONITORING`, `AWAITING_REVIEW` and
`RESOLVED`, none of which are members. -/
def IncidentStatus.memberNamed : String → Option IncidentStatus
  | "PENDING" => some .pending
  | "PROCESSING" => some .processing
  | "SANITIZING" => some .sanitizing
  | "ANALYZING" => some .analyzing
  | "REASONING" => some .reasoning
  | "VERIFYING" => some .verifying
  | "CREATING_PR" => some .creatingPr
  | "PR_CREATED" => some .prCreated
  | "COMPLETED" => some .completed
  | "FAILED" => some .failed
  | "RETRYING" => some .retrying
  | _ => none

/-- The eleven status values actually representable in the code's enum. -/
def codeStatusValues : List String :=
  ["pending", "processing", "sanitizing", "analyzing", "reasoning", "verifying",
   "creating_pr", "pr_created", "completed", "failed", "retrying"]

/-- Enumeration of every `IncidentStatus` member, in source order. -/
def allIncidentStatuses : List IncidentStatus :=
  [.pending, .processing, .sanitizing, .analyzing, .reasoning, .verifying,
   .creatingPr, .prCreated, .completed, .failed, .retrying]

/-- The eight status values named by the spec (§4.7) as the closed state set. -/
def specEightStatusValues : List String :=
  ["pending", "monitoring", "processing", "awaiting_review", "pr_created",
   "resolved", "failed", "retrying"]

/-- C2 counterexample: the claimed closed set of eight states does not match the
status type.  `monitoring` is not the value of any member (so three of the
claimed eight states are not representable), while `sanitizing` is a
representable status outside the claimed set. -/
theorem c2_counterexample :
    ¬ ((∀ s : IncidentStatus, s.value ∈ specEightStatusValues) ∧
       (∀ v ∈ specEightStatusValues, ∃ s : IncidentStatus, s.value = v)) := by
  decide

/-- C2 (amended): the incident status type is exactly the closed eleven-value
set pending, processing, sanitizing, analyzing, reasoning, verifying,
creating_pr, pr_created, completed, failed, retrying: every member is in the
enumeration, and the enumeration's values are exactly that list. -/
theorem c2_amended :
    (∀ s : IncidentStatus, s ∈ allIncidentStatuses) ∧
    allIncidentStatuses.map IncidentStatus.value = codeStatusValues := by
  decide

/-- The members the ingress routes and the orchestrator refer to but which do
not exist on the enum; accessing them raises `AttributeError`. -/
theorem missingStatusMembers :
    IncidentStatus.memberNamed "MONITORING" = none ∧
    IncidentStatus.memberNamed "AWAITING_REVIEW" = none ∧
    IncidentStatus.memberNamed "RESOLVED" = none := by
  decide

/-! ## Ingress heuristic and the dormant branch
(src/api/routes/incidents.py, `process_incident_async` lines 47-68 and
`create_incident` lines 145-169) -/

/-- Substring containment (`pat in s` in Python), over character lists. -/
def containsChars (s pat : List Char) : Bool :=
  (List.range (s.length + 1)).any (fun i => pat.isPrefixOf (s.drop i))

/-- Python `str.lower()` over a character list (ASCII case mapping). -/
def pyLower (l : List Char) : List Char := l.map Char.toLower

/-- Python `str.strip()` over a character list: drop leading and trailing
whitespace. -/
def pyStrip (l : List Char) : List Char :=
  ((l.dropWhile Char.isWhitespace).reverse.dropWhile Char.isWhitespace).reverse

/-- Python `"error" in logs.lower()`. -/
def hasErrorToken (l : String) : Bool :=
  containsChars (pyLower l.toList) "error".toList

/-- `has_error_logs = logs and len(logs.strip()) > 20 and "error" in logs.lower()`
(routes/incidents.py lines 49 and 147).  `none` models a missing `logs` field
and `some ""` an empty one; both are falsy in Python. -/
def hasErrorLogs : Option String → Bool
  | none => false
  | some l => (!(l == "")) && decide (20 < (pyStrip l.toList).length) && hasErrorToken l

/-- What the ingress does with a freshly created incident: either take the
dormant-sentinel branch (attempt to set the `MONITORING` status and do not run
the pipeline) or queue the full pipeline. -/
inductive IngressAction
  | dormantMonitoring
  | runPipeline
  deriving DecidableEq, Repr

/-- The branch taken by `process_incident_async` / `create_incident`: the
dormant branch when `has_error_logs` is falsy, the pipeline otherwise. -/
def ingressRoute (logs : Option String) : IngressAction :=
  if hasErrorLogs logs then .runPipeline else .dormantMonitoring

/-- Modelled from the spec: the claim's heuristic for "empty / near-empty"
logs — fewer than 20 non-blank characters AND no `error` token. -/
def specNearEmptyLogs : Option String → Bool
  | none => true
  | some l =>
      decide ((l.toList.filter (fun c => !c.isWhitespace)).length < 20) &&
      !(hasErrorToken l)

/-- A log text that is long (more than 20 non-blank characters) but contains no
`error` token. -/
def c7Logs : String := "the deployment finished and all checks were green"

/-- C7 counterexample: the claim says an incident goes dormant precisely when
its logs have fewer than ~20 non-blank characters and no `error` token.  On
`c7Logs` (49 characters, no `error` token) the code takes the dormant branch
even though the claimed heuristic is not satisfied, so the stated equivalence
fails. -/
theorem c7_counterexample :
    ¬ (ingressRoute (some c7Logs) = .dormantMonitoring ↔
       specNearEmptyLogs (some c7Logs) = true) := by
  decide

/-- C7 (amended): an incident created via ingress takes the dormant branch
(attempting `MONITORING`, not starting the pipeline) precisely when it is NOT
the case that its logs are non-empty, have more than 20 characters after
stripping, and contain an `error` token (case-insensitive); the heuristic is
this negated conjunction, not the spec's conjunction of near-emptiness and
absence of `error`.  (The `MONITORING` member is in fact absent from the status
enum — see `missingStatusMembers` — so the dormant branch's status write raises
`AttributeError` and the incident never actually holds a `monitoring` status.) -/
theorem c7_amended (l : String) :
    ingressRoute (some l) = .dormantMonitoring ↔
      ¬ (l ≠ "" ∧ 20 < (pyStrip l.toList).length ∧ hasErrorToken l = true) := by
  simp only [ingressRoute, hasErrorLogs]
  by_cases h1 : l = "" <;> by_cases h2 : 20 < (pyStrip l.toList).length <;>
    by_cases h3 : hasErrorToken l = true <;>
    simp [h1, h2, h3]

/-- C7 witness: on a log text that does satisfy the actual condition (long and
containing `error`), the pipeline branch is taken. -/
theorem c7_amended_witness :
    ingressRoute (some "ERROR: the build failed with a type error") ≠
      .dormantMonitoring := by
  intro h
  have := (c7_amended "ERROR: the build failed with a type error").mp h
  exact this (by decide)

/-! ## Status updates have no transition validation
(src/database/repositories/incident_repo.py `update_status`/`update`
lines 111-143; src/services/orchestrator.py `_update_status` lines 516-575) -/

/-- The incident fields touched by a status update. -/
structure IncidentRecord where
  status : IncidentStatus
  errorMessage : Option String
  currentState : Option String
  timeline : List String
  deriving DecidableEq, Repr

/-- `IncidentRepository.update_status`, via `update` with
`IncidentUpdate(status=..., error_message=...)`: the requested status is always
written; `error_message` is written only when not `None`.  There is no
transition table, no validation, and no error path. -/
def updateStatus (inc : IncidentRecord) (status : IncidentStatus)
    (errorMessage : Option String) : IncidentRecord :=
  { inc with
    status := status
    errorMessage :=
      match errorMessage with
      | some m => some m
      | none => inc.errorMessage }

/-- The `status_to_event` dictionary of `Orchestrator._update_status`
(orchestrator.py lines 534-540) with its `status.value.upper()` fallback. -/
def statusToEvent (s : IncidentStatus) : String :=
  match s with
  | .pending => "QUEUED"
  | .processing => "PROCESSING"
  | .completed => "COMPLETED"
  | .failed => "FAILED"
  | .prCreated => "PR_CREATED"
  | _ => s.value.toUpper

/-- `Orchestrator._update_status` (orchestrator.py lines 516-575): derives a
timeline event name from the detail text, writes the requested status through
`update_status`, and appends the timeline event.  All exceptions are swallowed;
nothing validates the transition. -/
def orchUpdateStatus (inc : IncidentRecord) (status : IncidentStatus)
    (detail : String) : IncidentRecord :=
  let eventState := (detail.toUpper).replace " " "_"
  let eventState := if 50 < eventState.length then statusToEvent status else eventState
  let inc' := updateStatus inc status none
  { inc' with
    timeline := inc'.timeline ++ [eventState]
    currentState := some eventState }

/-- Modelled from the spec: the §4.7 transition table, as pairs of status
values (from, to). -/
def specTransitionTable : List (String × String) :=
  [("pending", "monitoring"), ("pending", "processing"),
   ("monitoring", "processing"), ("processing", "awaiting_review"),
   ("awaiting_review", "resolved"), ("awaiting_review", "processing"),
   ("processing", "failed"), ("failed", "pending"), ("resolved", "pending"),
   ("processing", "pending")]

/-- C8 counterexample: applying the transition failed → pr_created — which is
not in the §4.7 table — produces no error and DOES mutate the stored status:
`update_status` is a blind write.  This falsifies the claim that a
non-table transition yields a typed error and leaves the status unchanged. -/
theorem c8_counterexample :
    (("failed", "pr_created") ∉ specTransitionTable) ∧
    (updateStatus ⟨.failed, none, none, []⟩ .prCreated none).status = .prCreated ∧
    (updateStatus ⟨.failed, none, none, []⟩ .prCreated none).status ≠ .failed := by
  decide

/-- C8 (amended): `update_status` (and the orchestrator's `_update_status` on
top of it) performs no transition validation at all: for every incident and
every requested status the stored status afterwards is exactly the requested
one, one timeline event is appended, and no error is possible (the function is
total and has no error result). -/
theorem c8_amended (inc : IncidentRecord) (s : IncidentStatus) (detail : String) :
    (orchUpdateStatus inc s detail).status = s ∧
    (orchUpdateStatus inc s detail).timeline.length = inc.timeline.length + 1 := by
  refine ⟨rfl, ?_⟩
  simp [orchUpdateStatus, updateStatus]

/-! ## Diff validation
(src/agents/agent_2_reasoner/patch_generator.py `validate_diff`,
`_parse_files_from_diff`, `_count_changes_for_file`, `_validate_hunks`,
lines 137-306)

The three regexes `DIFF_HEADER`, `FILE_HEADER` and `HUNK_HEADER` are all
`MULTILINE` patterns anchored at line starts, so they are embedded as per-line
parsers (greedy quantifiers over a character class pick the maximal split). -/

/-- Python string split on a single character. -/
def splitOnCharAux (c : Char) : List Char → List Char → List (List Char)
  | [], acc => [acc.reverse]
  | x :: xs, acc =>
    if x = c then acc.reverse :: splitOnCharAux c xs []
    else splitOnCharAux c xs (x :: acc)

/-- Python `content.split('\n')`. -/
def pyLines (s : String) : List String :=
  (splitOnCharAux '\n' s.toList []).map String.mk

/-- `pat in line` for strings. -/
def strContains (line pat : String) : Bool :=
  containsChars line.toList pat.toList

/-- `line.startswith(pre)` for strings. -/
def startsWithStr (line pre : String) : Bool :=
  pre.toList.isPrefixOf line.toList

/-- Leading decimal digits and the remainder, for embedding `(\d+)`. -/
def takeDigits (l : List Char) : List Char × List Char :=
  (l.takeWhile Char.isDigit, l.dropWhile Char.isDigit)

/-- Numeric value of a digit run. -/
def digitsToNat (ds : List Char) : Nat :=
  ds.foldl (fun n c => n * 10 + (c.toNat - 48)) 0

/-- The optional `(?:,(\d+))?` group of `HUNK_HEADER`: consume `,digits` when
present, otherwise consume nothing (the regex backtracks). -/
def parseOptCount (l : List Char) : Option Nat × List Char :=
  match l with
  | ',' :: r =>
    let (ds, r') := takeDigits r
    if ds.isEmpty then (none, l) else (some (digitsToNat ds), r')
  | _ => (none, l)

/-- `HUNK_HEADER = ^@@ -(\d+)(?:,(\d+))? \+(\d+)(?:,(\d+))? @@` matched at the
start of a line; yields (old start, old count?, new start, new count?). -/
def parseHunkHeader (line : String) : Option (Nat × Option Nat × Nat × Option Nat) :=
  match line.toList with
  | '@' :: '@' :: ' ' :: '-' :: r =>
    let (d1, r1) := takeDigits r
    if d1.isEmpty then none else
    let (c1, r2) := parseOptCount r1
    match r2 with
    | ' ' :: '+' :: r3 =>
      let (d3, r4) := takeDigits r3
      if d3.isEmpty then none else
      let (c2, r5) := parseOptCount r4
      match r5 with
      | ' ' :: '@' :: '@' :: _ => some (digitsToNat d1, c1, digitsToNat d3, c2)
      | _ => none
    | _ => none
  | _ => none

/-- `DIFF_HEADER = ^diff --git a/(.+) b/(.+)$` on one line.  The greedy first
group makes the split happen at the last ` b/` that leaves both sides
non-empty. -/
def parseGitHeaderLine (line : String) : Option (String × String) :=
  let cs := line.toList
  let pre := "diff --git a/".toList
  if pre.isPrefixOf cs then
    let rest := cs.drop pre.length
    let seps := (List.range rest.length).filter
      (fun i => decide (0 < i) && " b/".toList.isPrefixOf (rest.drop i) &&
        decide (i + 3 < rest.length))
    match seps.getLast? with
    | some i => some (String.mk (rest.take i), String.mk (rest.drop (i + 3)))
    | none => none
  else none

/-- `FILE_HEADER = ^(?:---|\+\+\+) (?:a/|b/)?(.+)$` on one line; the optional
`a/`/`b/` is only consumed when a non-empty capture remains (the regex
backtracks otherwise). -/
def parseFileHeaderLine (line : String) : Option String :=
  let cs := line.toList
  let body? :=
    if "--- ".toList.isPrefixOf cs then some (cs.drop 4)
    else if "+++ ".toList.isPrefixOf cs then some (cs.drop 4)
    else none
  match body? with
  | none => none
  | some body =>
    if body.isEmpty then none
    else if ("a/".toList.isPrefixOf body || "b/".toList.isPrefixOf body) &&
        decide (2 < body.length) then
      some (String.mk (body.drop 2))
    else some (String.mk body)

/-- Per-file change record (`models/patch.py FileChange`). -/
structure FileChange where
  path : String
  action : String
  additions : Nat
  deletions : Nat
  deriving DecidableEq, Repr

/-- `DIFF_HEADER.search(diff_content)`: some line is a full git diff header. -/
def anyGitHeader (content : String) : Bool :=
  (pyLines content).any (fun l => (parseGitHeaderLine l).isSome)

/-- `PatchGenerator._count_changes_for_file` (lines 241-271): scan the diff
lines with an in-section flag and count `+`/`-` lines. -/
def countChangesForFile (content filePath : String) : Nat × Nat :=
  let hasGit := anyGitHeader content
  let step := fun (st : Bool × Nat × Nat) (line : String) =>
    let (inSec, adds, dels) := st
    if strContains line ("+++ b/" ++ filePath) || strContains line ("+++ " ++ filePath) then
      (true, adds, dels)
    else if startsWithStr line "+++ " && inSec && !(strContains line filePath) then
      (false, adds, dels)
    else if inSec || !hasGit then
      if startsWithStr line "+" && !(startsWithStr line "+++") then (inSec, adds + 1, dels)
      else if startsWithStr line "-" && !(startsWithStr line "---") then (inSec, adds, dels + 1)
      else (inSec, adds, dels)
    else (inSec, adds, dels)
  let (_, adds, dels) := (pyLines content).foldl step (false, 0, 0)
  (adds, dels)

/-- First-occurrence dedup of the fallback file headers, skipping `/dev/null`
(lines 222-227). -/
def dedupHeaderPaths (paths : List String) : List String :=
  paths.foldl (fun acc p =>
    if acc.contains p || p == "/dev/null" then acc else acc ++ [p]) []

/-- `PatchGenerator._parse_files_from_diff` (lines 192-239). -/
def parseFilesFromDiff (content : String) : List FileChange :=
  let ls := pyLines content
  let gitHeaders := ls.filterMap parseGitHeaderLine
  if !gitHeaders.isEmpty then
    gitHeaders.map (fun h =>
      let (oldPath, newPath) := h
      let (action, path) :=
        if oldPath == "/dev/null" then ("added", newPath)
        else if newPath == "/dev/null" then ("deleted", oldPath)
        else ("modified", newPath)
      let (adds, dels) := countChangesForFile content newPath
      ⟨path, action, adds, dels⟩)
  else
    let headers := dedupHeaderPaths (ls.filterMap parseFileHeaderLine)
    headers.map (fun p =>
      let (adds, dels) := countChangesForFile content p
      ⟨p, "modified", adds, dels⟩)

/-- `PatchGenerator._validate_hunks` (lines 273-306): a hunk's observed `+`/`-`
lines are checked against its declared counts only when the NEXT hunk header is
reached, so the final hunk is never checked. -/
def validateHunks (content : String) : List String :=
  let step := fun (st : Option (Nat × Nat) × Nat × Nat × List String) (line : String) =>
    let (cur, adds, dels, errs) := st
    match parseHunkHeader line with
    | some h =>
      let (_, oldCount?, _, newCount?) := h
      let errs' :=
        match cur with
        | some (oldCount, newCount) =>
          let e1 :=
            if oldCount * 2 < dels then
              ["Hunk deletions (" ++ toString dels ++ ") exceeds expected (" ++
                toString oldCount ++ ")"]
            else []
          let e2 :=
            if newCount * 2 < adds then
              ["Hunk additions (" ++ toString adds ++ ") exceeds expected (" ++
                toString newCount ++ ")"]
            else []
          errs ++ e1 ++ e2
        | none => errs
      (some (oldCount?.getD 1, newCount?.getD 1), 0, 0, errs')
    | none =>
      match cur with
      | some _ =>
        if startsWithStr line "+" && !(startsWithStr line "+++") then
          (cur, adds + 1, dels, errs)
        else if startsWithStr line "-" && !(startsWithStr line "---") then
          (cur, adds, dels + 1, errs)
        else (cur, adds, dels, errs)
      | none => (cur, adds, dels, errs)
  let (_, _, _, errs) := (pyLines content).foldl step (none, 0, 0, [])
  errs

/-- The parsed-patch result of `validate_diff`. -/
structure ParsedPatch where
  rawDiff : String
  files : List FileChange
  isValid : Bool
  validationErrors : List String
  deriving DecidableEq, Repr

/-- The existence errors of `validate_diff` (lines 174-179): files whose action
is NOT `added` and NOT `deleted` must exist in the sanitized tree.
`pathExists` abstracts `(self.repo_path / path).exists()`. -/
def existenceErrors (pathExists : String → Bool) (files : List FileChange) :
    List String :=
  files.filterMap (fun fc =>
    if fc.action != "added" && fc.action != "deleted" && !(pathExists fc.path) then
      some ("File not found: " ++ fc.path)
    else none)

/-- The structural checks of `validate_diff` (lines 157-165): at least one
hunk header and at least one file header somewhere in the diff. -/
def structureErrors (content : String) : List String :=
  (if (pyLines content).any (fun l => (parseHunkHeader l).isSome) then []
   else ["No hunk headers (@@ ... @@) found in diff"]) ++
  (if (pyLines content).any (fun l => (parseFileHeaderLine l).isSome) then []
   else ["No file headers (--- / +++) found in diff"])

/-- Line 170-171 of `validate_diff`: no files parsed. -/
def noFilesErrors (files : List FileChange) : List String :=
  if files.isEmpty then ["Could not identify any files in diff"] else []

/-- All errors collected by `validate_diff`, in the order it appends them. -/
def diffErrors (pathExists : String → Bool) (content : String) : List String :=
  structureErrors content ++
  noFilesErrors (parseFilesFromDiff content) ++
  existenceErrors pathExists (parseFilesFromDiff content) ++
  validateHunks content

/-- `PatchGenerator.validate_diff` (lines 137-190). -/
def validateDiff (pathExists : String → Bool) (content : String) : ParsedPatch :=
  if (pyStrip content.toList).isEmpty then
    ⟨content, [], false, ["Empty diff content"]⟩
  else
    ⟨content, parseFilesFromDiff content,
      (diffErrors pathExists content).isEmpty, diffErrors pathExists content⟩

/-- A diff that deletes a file that does not exist in the tree, in the
git-header form recognised by `_parse_files_from_diff` as a deletion. -/
def c9BadDiff : String :=
  "diff --git a/ghost.py b//dev/null\n--- a/ghost.py\n+++ /dev/null\n@@ -1,2 +0,0 @@\n-line1\n-line2"

/-- C9 counterexample: `validate_diff` accepts `c9BadDiff` as valid against a
tree in which NO path exists, yet the diff names `ghost.py` with action
`deleted` (not `added`).  So a diff naming a non-added, non-existent path is
NOT rejected: the existence check exempts `deleted` as well as `added`. -/
theorem c9_counterexample :
    (validateDiff (fun _ => false) c9BadDiff).isValid = true ∧
    (⟨"ghost.py", "deleted", 0, 2⟩ : FileChange) ∈
      (validateDiff (fun _ => false) c9BadDiff).files ∧
    (fun (_ : String) => false) "ghost.py" = false := by
  decide

/-- C9 (amended): for every file named in a diff that `validate_diff` accepts
as valid, if that file's action is neither `added` nor `deleted` then its path
exists in the sanitized tree; deleted files are exempt from the existence
check, not just added ones. -/
theorem c9_theorem (pathExists : String → Bool) (content : String)
    (hvalid : (validateDiff pathExists content).isValid = true) :
    ∀ fc ∈ (validateDiff pathExists content).files,
      fc.action ≠ "added" → fc.action ≠ "deleted" → pathExists fc.path = true := by
  intro fc hmem hadd hdel
  by_cases hempty : (pyStrip content.toList).isEmpty
  · rw [validateDiff, if_pos hempty] at hmem
    simp at hmem
  · rw [validateDiff, if_neg hempty] at hvalid hmem
    have hnil : diffErrors pathExists content = [] := List.isEmpty_iff.mp hvalid
    by_cases hpe : pathExists fc.path = true
    · exact hpe
    · exfalso
      have hpf : pathExists fc.path = false := by
        cases h : pathExists fc.path
        · rfl
        · exact absurd h hpe
      have hmem' : ("File not found: " ++ fc.path) ∈ diffErrors pathExists content := by
        unfold diffErrors
        refine List.mem_append.mpr (Or.inl (List.mem_append.mpr (Or.inr ?_)))
        simp only [existenceErrors, List.mem_filterMap]
        refine ⟨fc, hmem, ?_⟩
        simp [hadd, hdel, hpf]
      rw [hnil] at hmem'
      simp at hmem'

/-- A one-file modification diff used to witness C9. -/
def c9GoodDiff : String :=
  "diff --git a/app.py b/app.py\n--- a/app.py\n+++ b/app.py\n@@ -1,1 +1,1 @@\n-old\n+new"

/-- The sanitized tree for the C9 witness: only `app.py` exists. -/
def c9Exists (p : String) : Bool := p == "app.py"

/-- C9 witness: on `c9GoodDiff`, accepted as valid, the (modified, non-added,
non-deleted) file `app.py` indeed exists in the tree. -/
theorem c9_theorem_witness : c9Exists "app.py" = true :=
  c9_theorem c9Exists c9GoodDiff (by decide)
    ⟨"app.py", "modified", 1, 1⟩ (by decide) (by decide) (by decide)

/-! ## Verifier status aggregation
(src/agents/agent_3_verifier/verifier.py `execute` lines 125-148 and
`_parse_pytest_output` lines 313-324; src/models/verification.py) -/

/-- `TestOutcome` from `src/models/verification.py`. -/
inductive TestOutcome
  | passed
  | failed
  | skipped
  | error
  deriving DecidableEq, Repr

/-- A parsed test record (`models/verification.py TestResult`, the fields the
verifier populates). -/
structure TestRecord where
  name : String
  outcome : TestOutcome
  durationMs : Nat
  errorMessage : Option String
  deriving DecidableEq, Repr

/-- `VerificationStatus` from `src/models/verification.py`; `partialRun`
renders the member whose value is the string starting with "part". -/
inductive VerificationStatus
  | pending
  | running
  | passed
  | failed
  | partialRun
  | error
  | noTests
  deriving DecidableEq, Repr

/-- The status aggregation of `VerifierAgent.execute` (lines 125-137): count
passed and failed outcomes; any failed ⇒ `failed`; otherwise zero passed ⇒
`no_tests`; otherwise `passed`.  Records with outcome `skipped` or `error`
count towards neither tally. -/
def aggregateStatus (tests : List TestRecord) : VerificationStatus :=
  let failed := (tests.filter (fun t => t.outcome == .failed)).length
  let passed := (tests.filter (fun t => t.outcome == .passed)).length
  if 0 < failed then .failed
  else if passed = 0 then .noTests
  else .passed

/-- The single synthetic record each parser produces on a sandbox timeout
(`_parse_pytest_output` lines 317-324, and identically for jest/unittest). -/
def timeoutRecords (durationMs : Nat) : List TestRecord :=
  [⟨"sandbox_timeout", .error, durationMs, some "Test execution timed out"⟩]

/-- `VerifierAgent._parse_pytest_output` (lines 313-360): on a timed-out
sandbox it returns the single synthetic record; otherwise it returns the
records extracted from stdout by the result-line regex, which the parameter
`parsed` abstracts. -/
def parsePytestRecords (timedOut : Bool) (durationMs : Nat)
    (parsed : List TestRecord) : List TestRecord :=
  if timedOut then timeoutRecords durationMs else parsed

/-- C3 counterexample: on a sandbox timeout the parser does produce the single
synthetic `sandbox_timeout` record with outcome `error`, but the aggregation
then sees zero failed and zero passed records, so the overall status is
`no_tests` — not `error` as the claim states. -/
theorem c3_counterexample :
    parsePytestRecords true 0 [] = timeoutRecords 0 ∧
    aggregateStatus (parsePytestRecords true 0 []) = .noTests ∧
    aggregateStatus (parsePytestRecords true 0 []) ≠ .error := by
  decide

/-- C3 (amended): the three aggregation rules hold as claimed — any failed
record ⇒ `failed`; none failed and at least one passed ⇒ `passed`; neither ⇒
`no_tests` — but on a sandbox wall-clock timeout, although the result contains
the single synthetic `sandbox_timeout` record with outcome `error`, the
overall status is `no_tests` (the synthetic record counts as neither passed
nor failed), not `error`. -/
theorem c3_theorem :
    (∀ ts : List TestRecord, (∃ t ∈ ts, t.outcome = .failed) →
      aggregateStatus ts = .failed) ∧
    (∀ ts : List TestRecord, (¬ ∃ t ∈ ts, t.outcome = .failed) →
      (∃ t ∈ ts, t.outcome = .passed) → aggregateStatus ts = .passed) ∧
    (∀ ts : List TestRecord, (¬ ∃ t ∈ ts, t.outcome = .failed) →
      (¬ ∃ t ∈ ts, t.outcome = .passed) → aggregateStatus ts = .noTests) ∧
    (∀ d : Nat, parsePytestRecords true d [] = timeoutRecords d ∧
      aggregateStatus (timeoutRecords d) = .noTests) := by
  have hfail : ∀ ts : List TestRecord,
      (∃ t ∈ ts, t.outcome = .failed) ↔
        0 < (ts.filter (fun t => t.outcome == .failed)).length := by
    intro ts
    rw [List.length_pos_iff_exists_mem]
    constructor
    · rintro ⟨t, ht, hout⟩
      exact ⟨t, List.mem_filter.mpr ⟨ht, by simp [hout]⟩⟩
    · rintro ⟨t, ht⟩
      have := List.mem_filter.mp ht
      exact ⟨t, this.1, by simpa using this.2⟩
  have hpass : ∀ ts : List TestRecord,
      (∃ t ∈ ts, t.outcome = .passed) ↔
        0 < (ts.filter (fun t => t.outcome == .passed)).length := by
    intro ts
    rw [List.length_pos_iff_exists_mem]
    constructor
    · rintro ⟨t, ht, hout⟩
      exact ⟨t, List.mem_filter.mpr ⟨ht, by simp [hout]⟩⟩
    · rintro ⟨t, ht⟩
      have := List.mem_filter.mp ht
      exact ⟨t, this.1, by simpa using this.2⟩
  refine ⟨?_, ?_, ?_, ?_⟩
  · intro ts h
    rw [aggregateStatus, if_pos ((hfail ts).mp h)]
  · intro ts hnf hp
    rw [aggregateStatus, if_neg, if_neg]
    · intro h0
      exact absurd ((hpass ts).mp hp) (by omega)
    · intro hlt
      exact hnf ((hfail ts).mpr hlt)
  · intro ts hnf hnp
    rw [aggregateStatus, if_neg, if_pos]
    · by_contra h0
      exact hnp ((hpass ts).mpr (by omega))
    · intro hlt
      exact hnf ((hfail ts).mpr hlt)
  · intro d
    exact ⟨rfl, rfl⟩

/-- C3 witness: the three aggregation rules evaluated at concrete record
lists (one failing, one passing, one skipped-only). -/
theorem c3_theorem_witness :
    aggregateStatus [⟨"t1", .failed, 0, none⟩] = .failed ∧
    aggregateStatus [⟨"t2", .passed, 0, none⟩] = .passed ∧
    aggregateStatus [⟨"t3", .skipped, 0, none⟩] = .noTests ∧
    aggregateStatus (timeoutRecords 7) = .noTests :=
  ⟨c3_theorem.1 _ ⟨⟨"t1", .failed, 0, none⟩, by decide, rfl⟩,
   c3_theorem.2.1 _ (by decide) ⟨⟨"t2", .passed, 0, none⟩, by decide, rfl⟩,
   c3_theorem.2.2.1 _ (by decide) (by decide),
   (c3_theorem.2.2.2 7).2⟩

/-! ## Reasoner retry loop
(src/agents/agent_2_reasoner/reasoner.py `execute`, lines 77-196;
settings: `MAX_RETRIES = 3`, `REASONER_CONFIDENCE_THRESHOLD = 0.7`) -/

/-- A parsed LLM reply (`patch_generator.py LLMResponse`, the fields the retry
loop inspects).  `confidence` is the already-clamped parsed value. -/
structure ParsedResponse where
  parseErrors : List String
  diff : String
  confidence : ℚ
  deriving DecidableEq, Repr

/-- How one run of the reasoner's retry loop ends. -/
inductive ReasonerOutcome
  | ok (confidence : ℚ)
  | lowConfidence (confidence : ℚ)
  | exhausted
  deriving DecidableEq, Repr

/-- `settings.MAX_RETRIES` (config/settings.py line 68). -/
def maxRetries : Nat := 3

/-- `settings.REASONER_CONFIDENCE_THRESHOLD` (config/settings.py line 67). -/
def confidenceThreshold : ℚ := mkRat 7 10

/-- The reasoner's retry loop (reasoner.py lines 81-196).  The list holds the
parsed reply of each successive LLM call; an exhausted list models an
`LLMError` on every remaining call (each still consumes an attempt).  Parse
errors, a missing diff, or an invalid diff re-prompt and retry; a parsed
confidence below the threshold returns a final failure IMMEDIATELY, consuming
no further replies; otherwise the patch is accepted. -/
def reasonerLoop (pathExists : String → Bool) (threshold : ℚ) :
    Nat → List ParsedResponse → ReasonerOutcome
  | 0, _ => .exhausted
  | _ + 1, [] => .exhausted
  | n + 1, r :: rest =>
    if !r.parseErrors.isEmpty then reasonerLoop pathExists threshold n rest
    else if r.diff == "" then reasonerLoop pathExists threshold n rest
    else if !(validateDiff pathExists r.diff).isValid then
      reasonerLoop pathExists threshold n rest
    else if r.confidence < threshold then .lowConfidence r.confidence
    else .ok r.confidence

/-! ## Orchestrated pipeline
(src/services/orchestrator.py `process_incident`, lines 86-201;
src/agents/agent_4_publisher/publisher.py `execute` lines 67-202 and
`_determine_labels` lines 484-508) -/

/-- The pipeline stages, in orchestrator order. -/
inductive Stage
  | clone
  | sanitizer
  | detective
  | reasoner
  | verifier
  | publisher
  deriving DecidableEq, Repr

/-- The external outcomes of one pipeline run: whether each I/O-bound stage
succeeds, the parsed LLM replies, the sanitized-tree membership used by diff
validation, and the verification result. -/
structure PipelineEnv where
  cloneOk : Bool
  sanitizeOk : Bool
  detectiveOk : Bool
  responses : List ParsedResponse
  pathExists : String → Bool
  verifierAgentOk : Bool
  verifStatus : VerificationStatus
  publisherOk : Bool

/-- The verification result handed to the publisher: the verifier's status
when its agent run succeeded, otherwise the `NO_TESTS` placeholder the
orchestrator fabricates (orchestrator.py lines 448-463). -/
def verifResultStatus (env : PipelineEnv) : VerificationStatus :=
  if env.verifierAgentOk then env.verifStatus else .noTests

/-- `PublisherAgent._determine_labels` (publisher.py lines 484-508). -/
def determineLabels (confidence : ℚ) (vs : VerificationStatus) : List String :=
  (["neverdown", "automated-fix"] ++
    [if mkRat 9 10 ≤ confidence then "high-confidence"
     else if mkRat 7 10 ≤ confidence then "medium-confidence"
     else "low-confidence"]) ++
  [if vs = .passed then "tests-passing"
   else if vs = .noTests then "needs-tests"
   else "tests-failing"]

/-- The observable outcome of one `process_incident` run: the stages that
executed, whether a PR was created (and its labels), the final stored status,
and the boolean the coroutine returns. -/
structure PipelineRun where
  stages : List Stage
  prCreated : Bool
  prLabels : List String
  finalStatus : IncidentStatus
  returnValue : Bool
  deriving Repr

/-- `Orchestrator.process_incident` (lines 86-201).  Faithful control flow:

* clone/sanitizer/detective failures mark the incident FAILED and stop;
* the reasoner failing (retries exhausted or low confidence) marks FAILED and
  stops BEFORE the verifier;
* a verifier failure (agent error or `status == FAILED`) is only logged —
  lines 143-150 explicitly continue to the publisher;
* the publisher failing marks FAILED; on publisher success the PR exists and
  the final status write accesses `IncidentStatus.AWAITING_REVIEW`, a member
  that does not exist, so the `except` handler (lines 188-197) marks the
  incident FAILED and returns False even though the PR was created. -/
def processIncident (env : PipelineEnv) : PipelineRun :=
  if !env.cloneOk then
    ⟨[.clone], false, [], .failed, false⟩
  else if !env.sanitizeOk then
    ⟨[.clone, .sanitizer], false, [], .failed, false⟩
  else if !env.detectiveOk then
    ⟨[.clone, .sanitizer, .detective], false, [], .failed, false⟩
  else
    match reasonerLoop env.pathExists confidenceThreshold maxRetries env.responses with
    | .exhausted =>
        ⟨[.clone, .sanitizer, .detective, .reasoner], false, [], .failed, false⟩
    | .lowConfidence _ =>
        ⟨[.clone, .sanitizer, .detective, .reasoner], false, [], .failed, false⟩
    | .ok confidence =>
        let stages := [.clone, .sanitizer, .detective, .reasoner, .verifier, .publisher]
        if !env.publisherOk then
          ⟨stages, false, [], .failed, false⟩
        else
          let labels := determineLabels confidence (verifResultStatus env)
          match IncidentStatus.memberNamed "AWAITING_REVIEW" with
          | some s => ⟨stages, true, labels, s, true⟩
          | none => ⟨stages, true, labels, .failed, false⟩

/-- A reply whose diff validates against a tree containing `app.py` and whose
declared confidence is high. -/
def goodResponse : ParsedResponse :=
  ⟨[], "diff --git a/app.py b/app.py\n--- a/app.py\n+++ b/app.py\n@@ -1,1 +1,1 @@\n-old\n+new", 1⟩

/-- A pipeline run in which every agent succeeds but the verifier reports a
`FAILED` verification. -/
def c1Env : PipelineEnv :=
  ⟨true, true, true, [goodResponse], fun p => p == "app.py", true, .failed, true⟩

/-- C1 counterexample: with the verifier reporting status `failed`, the
publisher stage still executes and a pull request is still created (carrying
the `tests-failing` label) — the claim that the publisher is skipped and no PR
is created is false on the code. -/
theorem c1_counterexample :
    verifResultStatus c1Env = .failed ∧
    Stage.publisher ∈ (processIncident c1Env).stages ∧
    (processIncident c1Env).prCreated = true ∧
    "tests-failing" ∈ (processIncident c1Env).prLabels := by
  decide

/-- C1 (amended): for every run of the default pipeline in which the clone,
sanitizer, detective and reasoner succeed and the publisher succeeds, a
`failed` verification result does NOT halt the pipeline: the publisher stage
executes, a pull request is created, and it carries the `tests-failing` label.
(The incident does still end `failed`, but only because the final
`AWAITING_REVIEW` status write raises `AttributeError`.) -/
theorem c1_amended (env : PipelineEnv)
    (hclone : env.cloneOk = true) (hsan : env.sanitizeOk = true)
    (hdet : env.detectiveOk = true)
    (hreas : ∃ c, reasonerLoop env.pathExists confidenceThreshold maxRetries
      env.responses = .ok c)
    (hverif : verifResultStatus env = .failed)
    (hpub : env.publisherOk = true) :
    Stage.publisher ∈ (processIncident env).stages ∧
    (processIncident env).prCreated = true ∧
    "tests-failing" ∈ (processIncident env).prLabels ∧
    (processIncident env).finalStatus = .failed := by
  obtain ⟨c, hc⟩ := hreas
  have hm : IncidentStatus.memberNamed "AWAITING_REVIEW" = none := rfl
  refine ⟨?_, ?_, ?_, ?_⟩ <;>
    simp [processIncident, hclone, hsan, hdet, hc, hpub, hm, determineLabels, hverif]

/-- C1 witness: the amended claim evaluated on the concrete environment of the
counterexample run. -/
theorem c1_amended_witness :
    Stage.publisher ∈ (processIncident c1Env).stages ∧
    (processIncident c1Env).prCreated = true ∧
    "tests-failing" ∈ (processIncident c1Env).prLabels ∧
    (processIncident c1Env).finalStatus = .failed :=
  c1_amended c1Env rfl rfl rfl ⟨1, by decide⟩ (by decide) rfl

/-- C5: when the reply of some attempt parses cleanly to a valid diff but its
confidence is below the 0.7 threshold, the reasoner returns a final
`low_confidence` failure at once — the remaining replies are never consumed,
so no retry happens — and the pipeline marks the incident FAILED without
executing the verifier or the publisher. -/
theorem c5_theorem (env : PipelineEnv) (r : ParsedResponse)
    (rest : List ParsedResponse)
    (hclone : env.cloneOk = true) (hsan : env.sanitizeOk = true)
    (hdet : env.detectiveOk = true)
    (hresp : env.responses = r :: rest)
    (hparse : r.parseErrors = []) (hdiff : r.diff ≠ "")
    (hvalid : (validateDiff env.pathExists r.diff).isValid = true)
    (hconf : r.confidence < confidenceThreshold) :
    reasonerLoop env.pathExists confidenceThreshold maxRetries env.responses =
      .lowConfidence r.confidence ∧
    Stage.verifier ∉ (processIncident env).stages ∧
    Stage.publisher ∉ (processIncident env).stages ∧
    (processIncident env).prCreated = false ∧
    (processIncident env).finalStatus = .failed := by
  have hloop : reasonerLoop env.pathExists confidenceThreshold maxRetries
      env.responses = .lowConfidence r.confidence := by
    rw [hresp]
    show reasonerLoop env.pathExists confidenceThreshold (2 + 1) (r :: rest) = _
    rw [reasonerLoop]
    simp [hparse, hdiff, hvalid, hconf]
  refine ⟨hloop, ?_, ?_, ?_, ?_⟩ <;>
    simp [processIncident, hclone, hsan, hdet, hloop]

/-- A high-confidence reply that would be accepted if it were ever reached. -/
def spareResponse : ParsedResponse :=
  ⟨[], "diff --git a/app.py b/app.py\n--- a/app.py\n+++ b/app.py\n@@ -1,1 +1,1 @@\n-old\n+new", 1⟩

/-- A reply identical to `goodResponse` except that it declares confidence
0.5, below the 0.7 threshold. -/
def lowConfResponse : ParsedResponse :=
  ⟨[], "diff --git a/app.py b/app.py\n--- a/app.py\n+++ b/app.py\n@@ -1,1 +1,1 @@\n-old\n+new", mkRat 1 2⟩

/-- The pipeline environment of the low-confidence scenario: a perfect spare
reply is available for a retry, but must never be used. -/
def c5Env : PipelineEnv :=
  ⟨true, true, true, [lowConfResponse, spareResponse], fun p => p == "app.py",
    true, .passed, true⟩

/-- C5 witness: on the concrete low-confidence scenario the loop stops at the
first reply (despite a perfect spare reply being available) and the pipeline
never reaches the verifier or publisher. -/
theorem c5_theorem_witness :
    reasonerLoop c5Env.pathExists confidenceThreshold maxRetries c5Env.responses =
      .lowConfidence (mkRat 1 2) ∧
    Stage.verifier ∉ (processIncident c5Env).stages ∧
    Stage.publisher ∉ (processIncident c5Env).stages ∧
    (processIncident c5Env).prCreated = false ∧
    (processIncident c5Env).finalStatus = .failed :=
  c5_theorem c5Env lowConfResponse [spareResponse] rfl rfl rfl rfl rfl
    (by decide) (by decide) (by decide)

/-! ## Sanitizer: .env-file redaction
(src/agents/agent_0_sanitizer/sanitizer.py `_sanitize_file` lines 240-312;
src/agents/agent_0_sanitizer/redactor.py `redact_env_file` lines 164-220)

`_sanitize_file` special-cases files whose name starts with `.env` or whose
suffix is `.env`: they go through `redact_env_file`, NOT through the pattern
registry.  The Shannon-entropy test used by `_is_likely_secret_value` is a
float computation, so it is abstracted as the oracle parameter `hiEnt`; every
theorem below holds for every oracle. -/

/-- The apostrophe character, and the one-character string holding it. -/
def squote : Char := Char.ofNat 39

/-- One-character apostrophe string. -/
def squoteStr : String := String.mk [squote]

/-- `line.endswith(suf)`. -/
def endsWithStr (line suf : String) : Bool :=
  suf.toList.isSuffixOf line.toList

/-- Python `"\n".join(lines)`. -/
def joinWithNewline : List String → String
  | [] => ""
  | [x] => x
  | x :: xs => x ++ "\n" ++ joinWithNewline xs

/-- `Path(name).suffix` for a plain file name: the extension from the final
dot, empty for dot-files like `.env`. -/
def pySuffix (name : String) : String :=
  match splitOnCharAux '.' name.toList [] with
  | [] => ""
  | first :: rest =>
    match rest.getLast? with
    | none => ""
    | some lastSeg =>
      if first.isEmpty || lastSeg.isEmpty then "" else String.mk ('.' :: lastSeg)

/-- The `.env` dispatch of `_sanitize_file` (sanitizer.py line 264):
`file_path.name.startswith('.env') or file_path.suffix == '.env'`. -/
def isEnvFile (name : String) : Bool :=
  startsWithStr name ".env" || pySuffix name == ".env"

/-- The key-name denylist of `Redactor._is_likely_secret_key`
(redactor.py lines 222-230). -/
def secretKeyIndicators : List String :=
  ["password", "passwd", "pwd", "secret", "token", "key",
   "api_key", "apikey", "auth", "credential", "private",
   "access_key", "secret_key", "db_pass", "database_password"]

/-- `Redactor._is_likely_secret_key`. -/
def isLikelySecretKey (key : String) : Bool :=
  secretKeyIndicators.any (fun ind => containsChars (pyLower key.toList) ind.toList)

/-- Python `value.strip("\"'")`: drop leading and trailing quote characters. -/
def stripQuotes (s : String) : String :=
  String.mk (((s.toList.dropWhile (fun c => c = '"' || c = squote)).reverse.dropWhile
    (fun c => c = '"' || c = squote)).reverse)

/-- The character class `[A-Za-z0-9+/=\-_]` shared by the entropy scanner and
the env-value check. -/
def secretAlphabetChar (c : Char) : Bool :=
  ('A' ≤ c && c ≤ 'Z') || ('a' ≤ c && c ≤ 'z') || ('0' ≤ c && c ≤ '9') ||
  c = '+' || c = '/' || c = '=' || c = '-' || c = '_'

/-- `Redactor._is_likely_secret_value` (redactor.py lines 232-250); `hiEnt`
abstracts the float-valued `is_high_entropy` call. -/
def isLikelySecretValue (hiEnt : String → Bool) (value : String) : Bool :=
  let v := stripQuotes value
  if v == "" || startsWithStr v "<" || v == "xxx" then false
  else if startsWithStr v "postgresql://" || startsWithStr v "mysql://" ||
      startsWithStr v "mongodb://" then true
  else if decide (20 < v.toList.length) && v.toList.all secretAlphabetChar then
    hiEnt v
  else false

/-- The env-line regex `^([A-Za-z_][A-Za-z0-9_]*)=(.*)$` applied to the
stripped line. -/
def parseEnvLine (cs : List Char) : Option (String × String) :=
  match cs with
  | [] => none
  | c :: rest =>
    if ('A' ≤ c && c ≤ 'Z') || ('a' ≤ c && c ≤ 'z') || c = '_' then
      let identChar := fun d =>
        ('A' ≤ d && d ≤ 'Z') || ('a' ≤ d && d ≤ 'z') || ('0' ≤ d && d ≤ '9') || d = '_'
      match rest.dropWhile identChar with
      | '=' :: value => some (String.mk (c :: rest.takeWhile identChar), String.mk value)
      | _ => none
    else none

/-- One redaction made to a file (`redactor.py RedactionEntry`; `startPos` /
`stopPos` render the `start` / `end` fields). -/
structure RedactionEntry where
  originalText : String
  replacement : String
  startPos : Nat
  stopPos : Nat
  lineNumber : Nat
  patternName : String
  severity : String
  deriving DecidableEq, Repr

/-- `Redactor.redact_env_file` (redactor.py lines 164-220): per line, keep
comments and blanks; parse `KEY=VALUE`; when the key matches the denylist or
the value looks secret, replace the value with `<REDACTED>` (preserving
surrounding quotes) and record an entry with pattern `env_file_value` and
severity `high`. -/
def redactEnvFile (hiEnt : String → Bool) (content : String) :
    String × List RedactionEntry :=
  let step := fun (st : Nat × List String × List RedactionEntry) (line : String) =>
    let (i, outLines, entries) := st
    let stripped := pyStrip line.toList
    if stripped.isEmpty || (match stripped with | '#' :: _ => true | _ => false) then
      (i + 1, outLines ++ [line], entries)
    else
      match parseEnvLine stripped with
      | none => (i + 1, outLines ++ [line], entries)
      | some (key, value) =>
        if isLikelySecretKey key || isLikelySecretValue hiEnt value then
          let redactedValue :=
            if startsWithStr value "\"" && endsWithStr value "\"" then
              "\"<REDACTED>\""
            else if startsWithStr value squoteStr && endsWithStr value squoteStr then
              squoteStr ++ "<REDACTED>" ++ squoteStr
            else "<REDACTED>"
          (i + 1, outLines ++ [key ++ "=" ++ redactedValue],
           entries ++
             [⟨value, redactedValue, 0, value.toList.length, i + 1,
               "env_file_value", "high"⟩])
        else (i + 1, outLines ++ [line], entries)
  let r := (pyLines content).foldl step (0, [], [])
  (joinWithNewline r.2.1, r.2.2)

/-- The input tree file of the C4 scenario: `config.env` with the AWS secret
key on line 3. -/
def c4Content : String :=
  "# environment config\nDEBUG=false\nAWS_SECRET_ACCESS_KEY=wJalrXUtnFEMI/K7MDENG/bPxRfiCYEXAMPLEKEY"

/-- C4 counterexample: `config.env` is routed to the env-file redactor, and
line 3 is rewritten to `AWS_SECRET_ACCESS_KEY=<REDACTED>` — not to
`AWS_SECRET_ACCESS_KEY=<REDACTED_AWS_SECRET_KEY>` — with the single report
entry carrying severity `high`, not `critical`. -/
theorem c4_counterexample :
    isEnvFile "config.env" = true ∧
    (pyLines (redactEnvFile (fun _ => false) c4Content).1)[2]? ≠
      some "AWS_SECRET_ACCESS_KEY=<REDACTED_AWS_SECRET_KEY>" ∧
    ((redactEnvFile (fun _ => false) c4Content).2.map RedactionEntry.severity) ≠
      ["critical"] := by
  decide

/-- C4 (amended): for every entropy oracle, sanitizing the C4 tree routes
`config.env` through the env-file redactor, rewrites line 3 to
`AWS_SECRET_ACCESS_KEY=<REDACTED>` (the key is preserved, the value replaced
by the generic placeholder), and the report contains exactly one entry for it:
line 3, pattern `env_file_value`, severity `high`. -/
theorem c4_amended (hiEnt : String → Bool) :
    isEnvFile "config.env" = true ∧
    (pyLines (redactEnvFile hiEnt c4Content).1)[2]? =
      some "AWS_SECRET_ACCESS_KEY=<REDACTED>" ∧
    (redactEnvFile hiEnt c4Content).2.map
        (fun e => (e.lineNumber, e.patternName, e.severity)) =
      [(3, "env_file_value", "high")] :=
  ⟨rfl, rfl, rfl⟩

/-! ## Sanitized copy and the Detective's git analysis
(src/agents/agent_0_sanitizer/sanitizer.py `execute` line 95;
src/services/orchestrator.py `_run_detective` lines 362-394;
src/agents/agent_1_detective/detective.py `execute` lines 111-167;
src/agents/agent_1_detective/diff_analyzer.py `get_recent_commits`
lines 67-125 and `find_relevant_changes` lines 260-307)

A working tree is modelled as the set of relative paths on disk (each a list
of components) together with the commit history that `git` can reach through
the tree's `.git` directory. -/

/-- A git commit as `get_recent_commits` reports it. -/
structure CommitInfo where
  sha : String
  author : String
  message : String
  filesChanged : List String
  deriving DecidableEq, Repr

/-- A working tree on disk. -/
structure WorkTree where
  paths : List (List String)
  history : List CommitInfo

/-- `shutil.copytree(repo_path, sanitized_path, ignore=ignore_patterns('.git'))`
(sanitizer.py line 95): every directory entry named `.git`, at any depth, is
left out of the copy; the git history itself lives under `.git` and so does
not travel with the copy. -/
def sanitizedCopy (t : WorkTree) : WorkTree :=
  ⟨t.paths.filter (fun p => !p.contains ".git"), t.history⟩

/-- `DiffAnalyzer.get_recent_commits` (diff_analyzer.py lines 67-125): runs
`git log` with the tree root as working directory.  Without a `.git` directory
the subprocess fails (`check=True` raises `CalledProcessError`) and the
`except` branch returns the empty list. -/
def getRecentCommits (t : WorkTree) : List CommitInfo :=
  if t.paths.any (fun p => p.contains ".git") then t.history else []

/-- A relevant recent change (`models/analysis.py RecentChange`, the fields
the detective uses). -/
structure RecentChange where
  commitSha : String
  message : String
  relevance : ℚ
  deriving DecidableEq, Repr

/-- `DiffAnalyzer.find_relevant_changes` (lines 260-307): relevance 1.0 when
the commit touches the suspect file itself, otherwise the relatedness score
(commits under 0.3 are discarded); sorted descending, top five kept.
`relatedness` abstracts `_calculate_relatedness` (lines 309-350). -/
def findRelevantChanges (relatedness : String → List String → ℚ)
    (filePath : String) (commits : List CommitInfo) : List RecentChange :=
  let relevant := commits.filterMap (fun c =>
    if c.filesChanged.contains filePath then
      some ⟨c.sha, c.message, 1⟩
    else
      let score := relatedness filePath c.filesChanged
      if score < mkRat 3 10 then none else some ⟨c.sha, c.message, score⟩)
  (relevant.mergeSort (fun a b => decide (b.relevance ≤ a.relevance))).take 5

/-- A suspected file (`models/analysis.py SuspectedFile`, the fields the git
enhancement step touches). -/
structure Suspect where
  path : String
  confidence : ℚ
  evidence : List String
  deriving DecidableEq, Repr

/-- One iteration of the git-history enhancement loop of
`DetectiveAgent.execute` (lines 151-166): compute the suspect's relevant
changes; if any exist, add 0.2 confidence (capped at 1.0) and an evidence
line quoting the top change's message; collect the changes. -/
def enhanceStep (relatedness : String → List String → ℚ)
    (commits : List CommitInfo) (st : List Suspect × List RecentChange)
    (sf : Suspect) : List Suspect × List RecentChange :=
  let changes := findRelevantChanges relatedness sf.path commits
  let sf' :=
    if !changes.isEmpty then
      { sf with
        confidence := min 1 (sf.confidence + mkRat 2 10)
        evidence := sf.evidence ++
          ["Recently changed in commit: " ++
            (changes.head?.elim "" (fun c => String.mk (c.message.toList.take 50)))] }
    else sf
  (st.1 ++ [sf'], st.2 ++ changes)

/-- The git-history enhancement loop of `DetectiveAgent.execute`
(lines 150-166), folded over the suspects. -/
def enhanceWithGitHistory (relatedness : String → List String → ℚ)
    (commits : List CommitInfo) (suspects : List Suspect) :
    List Suspect × List RecentChange :=
  suspects.foldl (enhanceStep relatedness commits) ([], [])

/-- The dedup-by-sha / sort / top-five post-processing of the collected
changes (detective.py lines 168-175 and 199). -/
def dedupSortChanges (changes : List RecentChange) : List RecentChange :=
  let deduped := (changes.foldl
    (fun (acc : List String × List RecentChange) c =>
      if acc.1.contains c.commitSha then acc
      else (acc.1 ++ [c.commitSha], acc.2 ++ [c])) ([], [])).2
  (deduped.mergeSort (fun a b => decide (b.relevance ≤ a.relevance))).take 5

/-- `findRelevantChanges` over an empty commit list is empty. -/
theorem findRelevantChanges_nil (relatedness : String → List String → ℚ)
    (filePath : String) :
    findRelevantChanges relatedness filePath [] = [] := by
  simp [findRelevantChanges]

/-- One enhancement step over an empty commit list leaves the suspect
untouched and collects nothing. -/
theorem enhanceStep_nil (relatedness : String → List String → ℚ)
    (st : List Suspect × List RecentChange) (sf : Suspect) :
    enhanceStep relatedness [] st sf = (st.1 ++ [sf], st.2) := by
  simp [enhanceStep, findRelevantChanges_nil]

/-- Folding the enhancement step over an empty commit list appends the
suspects unchanged. -/
theorem foldl_enhanceStep_nil (relatedness : String → List String → ℚ) :
    ∀ (ss : List Suspect) (acc : List Suspect × List RecentChange),
      ss.foldl (enhanceStep relatedness []) acc = (acc.1 ++ ss, acc.2)
  | [], acc => by simp
  | sf :: rest, acc => by
      rw [List.foldl_cons, enhanceStep_nil, foldl_enhanceStep_nil relatedness rest]
      simp

/-- The enhancement loop over an empty commit list changes nothing. -/
theorem enhanceWithGitHistory_nil (relatedness : String → List String → ℚ)
    (suspects : List Suspect) :
    enhanceWithGitHistory relatedness [] suspects = (suspects, []) := by
  unfold enhanceWithGitHistory
  rw [foldl_enhanceStep_nil]
  simp

/-- C10: the sanitized tree never contains a `.git` entry, so the detective's
git analysis over it finds zero commits, the collected and reported
recent-changes lists are empty, and no suspect receives the recently-changed
confidence boost (the suspect list is returned unchanged). -/
theorem c10_theorem (t : WorkTree) (relatedness : String → List String → ℚ)
    (suspects : List Suspect) :
    ((sanitizedCopy t).paths.all (fun p => !p.contains ".git")) = true ∧
    getRecentCommits (sanitizedCopy t) = [] ∧
    enhanceWithGitHistory relatedness (getRecentCommits (sanitizedCopy t))
      suspects = (suspects, []) ∧
    dedupSortChanges
      (enhanceWithGitHistory relatedness (getRecentCommits (sanitizedCopy t))
        suspects).2 = [] := by
  have hall : ((sanitizedCopy t).paths.all (fun p => !p.contains ".git")) = true := by
    simp only [sanitizedCopy, List.all_eq_true]
    intro p hp
    exact (List.mem_filter.mp hp).2
  have hcommits : getRecentCommits (sanitizedCopy t) = [] := by
    rw [getRecentCommits, if_neg]
    intro hany
    obtain ⟨p, hp, hgit⟩ := List.any_eq_true.mp hany
    have hmem : (!p.contains ".git") = true :=
      (List.mem_filter.mp hp).2
    rw [hgit] at hmem
    exact absurd hmem (by decide)
  refine ⟨hall, hcommits, ?_, ?_⟩
  · rw [hcommits]
    exact enhanceWithGitHistory_nil relatedness suspects
  · rw [hcommits, enhanceWithGitHistory_nil]
    simp [dedupSortChanges]

/-! ## Sanitizer entropy channel
(src/agents/agent_0_sanitizer/patterns.py `calculate_shannon_entropy`
lines 53-81, `is_high_entropy` lines 84-99,
`PatternMatcher.find_high_entropy_strings` lines 327-368;
defaults `entropy_threshold = 4.5`, `min_entropy_length = 16`)

`find_high_entropy_strings` scans the content with the greedy regex
`[A-Za-z0-9+/=\-_]{20,}`, whose matches are exactly the maximal runs of the
character class having length at least 20, and keeps those that pass
`is_high_entropy`.  The float entropy is modelled over `ℝ`. -/

/-- Accumulating scanner producing the maximal runs of `secretAlphabetChar`
characters in a text (the matches a greedy character-class regex visits);
`acc` holds the current run reversed. -/
def maximalRunsAux : List Char → List Char → List (List Char)
  | [], acc => if acc.isEmpty then [] else [acc.reverse]
  | c :: cs, acc =>
    if secretAlphabetChar c then maximalRunsAux cs (c :: acc)
    else if acc.isEmpty then maximalRunsAux cs []
    else acc.reverse :: maximalRunsAux cs []

/-- The maximal runs of secret-alphabet characters in a text. -/
def maximalRuns (l : List Char) : List (List Char) := maximalRunsAux l []

/-- `calculate_shannon_entropy` (patterns.py lines 53-81): character
frequencies over the string, `-Σ p log₂ p`.  The iteration over the frequency
dictionary is rendered as a sum over the deduplicated character list. -/
noncomputable def shannonEntropy (s : List Char) : ℝ :=
  (s.dedup.map (fun c =>
    -(((s.count c : ℝ) / (s.length : ℝ)) *
      Real.logb 2 ((s.count c : ℝ) / (s.length : ℝ))))).sum

/-- `is_high_entropy` (patterns.py lines 84-99): strings shorter than
`min_length` are never high-entropy; otherwise the entropy must reach the
threshold (the boundary counts, `>=`). -/
def IsHighEntropy (threshold : ℝ) (minLength : ℕ) (s : List Char) : Prop :=
  minLength ≤ s.length ∧ threshold ≤ shannonEntropy s

/-- Membership in the output of `find_high_entropy_strings` with the default
configuration: the candidate regex only visits maximal runs of length ≥ 20,
and each must pass `is_high_entropy` with threshold 4.5 and min length 16. -/
def FlaggedHighEntropyRun (content r : List Char) : Prop :=
  r ∈ maximalRuns content ∧ 20 ≤ r.length ∧ IsHighEntropy 4.5 16 r

/-- The Shannon entropy of a non-empty string is at most log₂ of its length:
each present character has probability at least `1/length`, so each term
`-p log₂ p = p log₂ p⁻¹` is at most `p log₂ length`, and the probabilities
sum to one. -/
theorem shannonEntropy_le_logb_length (s : List Char) (hs : s ≠ []) :
    shannonEntropy s ≤ Real.logb 2 (s.length : ℝ) := by
  have hn : (0:ℝ) < (s.length : ℝ) := by
    have : 0 < s.length := List.length_pos.mpr hs
    exact_mod_cast this
  have hbound : ∀ c ∈ s.dedup,
      -(((s.count c : ℝ) / (s.length : ℝ)) *
          Real.logb 2 ((s.count c : ℝ) / (s.length : ℝ))) ≤
        ((s.count c : ℝ) / (s.length : ℝ)) * Real.logb 2 (s.length : ℝ) := by
    intro c hc
    have hk : 0 < s.count c := List.count_pos_iff.mpr (List.mem_dedup.mp hc)
    have hkpos : (0:ℝ) < (s.count c : ℝ) := by exact_mod_cast hk
    have hk1 : (1:ℝ) ≤ (s.count c : ℝ) := by exact_mod_cast hk
    have hppos : (0:ℝ) < (s.count c : ℝ) / (s.length : ℝ) := div_pos hkpos hn
    have hrw : -(((s.count c : ℝ) / (s.length : ℝ)) *
          Real.logb 2 ((s.count c : ℝ) / (s.length : ℝ))) =
        ((s.count c : ℝ) / (s.length : ℝ)) *
          Real.logb 2 (((s.count c : ℝ) / (s.length : ℝ))⁻¹) := by
      rw [Real.logb_inv]
      ring
    have hinvle : ((s.count c : ℝ) / (s.length : ℝ))⁻¹ ≤ (s.length : ℝ) := by
      rw [inv_div, div_le_iff₀ hkpos]
      nlinarith
    have hlog : Real.logb 2 (((s.count c : ℝ) / (s.length : ℝ))⁻¹) ≤
        Real.logb 2 (s.length : ℝ) :=
      Real.logb_le_logb_of_le one_lt_two (inv_pos.mpr hppos) hinvle
    rw [hrw]
    exact mul_le_mul_of_nonneg_left hlog (le_of_lt hppos)
  have hstep := List.sum_le_sum hbound
  refine le_trans hstep (le_of_eq ?_)
  have hfac : (s.dedup.map (fun c =>
        ((s.count c : ℝ) / (s.length : ℝ)) * Real.logb 2 (s.length : ℝ))).sum =
      (s.dedup.map (fun c => (s.count c : ℝ))).sum *
        (Real.logb 2 (s.length : ℝ) / (s.length : ℝ)) := by
    rw [← List.sum_map_mul_right]
    congr 1
    apply List.map_congr_left
    intro a _
    ring
  have hcast : (s.dedup.map (fun c => (s.count c : ℝ))).sum = (s.length : ℝ) := by
    have h1 : (((s.dedup.map (fun c => s.count c)).sum : ℕ) : ℝ) = (s.length : ℝ) := by
      rw [List.sum_map_count_dedup_eq_length]
    rw [← h1, Nat.cast_list_sum, List.map_map]
    rfl
  rw [hfac, hcast]
  field_simp

/-- C6: every maximal run of the alphabet `[A-Za-z0-9+/=_-]` with length at
least the default min length 16 and Shannon entropy at least the default
threshold 4.5 (boundary inclusive) is flagged by `find_high_entropy_strings`:
such a run necessarily has at least 2^4.5 > 22 distinct characters, hence
length ≥ 20, so the candidate regex `{20,}` does visit it and the
`is_high_entropy` test accepts it.  In particular this holds (vacuously) for
qualifying runs of length exactly 16, since no 16-character string reaches
entropy 4.5. -/
theorem c6_theorem (content r : List Char)
    (hmem : r ∈ maximalRuns content) (hlen : 16 ≤ r.length)
    (hent : (4.5:ℝ) ≤ shannonEntropy r) :
    FlaggedHighEntropyRun content r := by
  refine ⟨hmem, ?_, hlen, hent⟩
  by_contra hlt
  push_neg at hlt
  have hne : r ≠ [] := by
    intro h
    rw [h] at hlen
    simp at hlen
  have h1 : shannonEntropy r ≤ Real.logb 2 (r.length : ℝ) :=
    shannonEntropy_le_logb_length r hne
  have h2 : Real.logb 2 (r.length : ℝ) ≤ Real.logb 2 (19 : ℝ) := by
    apply Real.logb_le_logb_of_le one_lt_two
    · have h0 : 0 < r.length := by omega
      exact_mod_cast h0
    · have h19 : r.length ≤ 19 := by omega
      exact_mod_cast h19
  have h3 : Real.logb 2 (19 : ℝ) < 4.5 := by
    rw [Real.logb_lt_iff_lt_rpow one_lt_two (by norm_num : (0:ℝ) < 19)]
    have hpos : (0:ℝ) < (2:ℝ) ^ (4.5:ℝ) :=
      Real.rpow_pos_of_pos (by norm_num) _
    have hsq : (2:ℝ) ^ (4.5:ℝ) * (2:ℝ) ^ (4.5:ℝ) = 512 := by
      rw [← Real.rpow_add (by norm_num : (0:ℝ) < 2)]
      have h9 : (4.5:ℝ) + 4.5 = ((9:ℕ) : ℝ) := by norm_num
      rw [h9, Real.rpow_natCast]
      norm_num
    nlinarith
  linarith

/-- A 32-character run with all characters distinct: its entropy is log₂ 32 = 5. -/
def c6Run : List Char := "ABCDEFGHIJKLMNOPQRSTUVWXYZabcdef".toList

/-- The entropy of the 32-distinct-character run is exactly 5. -/
theorem c6Run_entropy : shannonEntropy c6Run = 5 := by
  have hded : c6Run.dedup = c6Run := List.dedup_eq_self.mpr (by decide)
  have hcount : ∀ c ∈ c6Run, c6Run.count c = 1 := by decide
  have hlen : c6Run.length = 32 := by decide
  unfold shannonEntropy
  rw [hded]
  have hmap : c6Run.map (fun c =>
        -(((c6Run.count c : ℝ) / (c6Run.length : ℝ)) *
          Real.logb 2 ((c6Run.count c : ℝ) / (c6Run.length : ℝ)))) =
      c6Run.map (fun _ =>
        -(((1:ℝ) / 32) * Real.logb 2 ((1:ℝ) / 32))) := by
    apply List.map_congr_left
    intro a ha
    rw [hcount a ha, hlen]
    norm_num
  rw [hmap]
  have hconst : (c6Run.map (fun _ =>
        -(((1:ℝ) / 32) * Real.logb 2 ((1:ℝ) / 32)))).sum =
      c6Run.length • (-(((1:ℝ) / 32) * Real.logb 2 ((1:ℝ) / 32))) := by
    simp
  rw [hconst, hlen]
  have hlog : Real.logb 2 ((1:ℝ) / 32) = -5 := by
    rw [one_div, Real.logb_inv]
    have h32 : (32:ℝ) = 2 ^ (5:ℕ) := by norm_num
    rw [h32, Real.logb_pow, Real.logb_self_eq_one (by norm_num : (1:ℝ) < 2)]
    norm_num
  rw [hlog]
  norm_num

/-- C6 witness: the concrete 32-distinct-character run, as its own content, is
a maximal run of length ≥ 16 with entropy 5 ≥ 4.5, and is flagged. -/
theorem c6_theorem_witness : FlaggedHighEntropyRun c6Run c6Run :=
  c6_theorem c6Run c6Run (by decide) (by decide)
    (by rw [c6Run_entropy]; norm_num)

end NeverDown
